import Mathlib

/-!
Verification of the Stock-Analysis-Agent repository.

The development shallowly embeds the two source files:
* `main.py` — six capability functions over the market-data collaborator
  (yfinance), tool registration, and a single-request launch;
* `RAG.py` — credential loading, index load/build/persist, tool registry for
  the two 10-K query engines, and the sequential session-driver loop.

External collaborators (yfinance, the vector index library, the language
model) are modelled as explicit inputs: an upstream lookup is an
`Except String α` value whose `.error` case carries the message of the Python
exception (`str(e)`), and each capability function returns the pair of its
result string and the list of `logging.error` emissions it performed.
Monetary amounts and ratios, floats in the source, are represented as natural
numbers scaled by 100 (cents / hundredths), with `format2f` playing the role
of Python's `:.2f` formatting.
-/

/-- Renders a value scaled by 100 the way Python's `f"{x:.2f}"` renders the
corresponding float: integer part, a dot, and exactly two decimals. -/
def format2f (c : Nat) : String :=
  toString (c / 100) ++ "." ++ (if c % 100 < 10 then "0" else "") ++ toString (c % 100)

/-- The fields of the yfinance `stock.info` dictionary that the source reads.
A `none` field is one absent from the dictionary: `info.get(k, d)` yields the
default, while `info[k]` raises a `KeyError`. Ratio-valued fields are scaled
by 100. -/
structure CompanyInfo where
  longName : Option String
  sector : Option String
  longBusinessSummary : Option String
  industry : Option String
  trailingPE : Option Nat
  priceToBook : Option Nat
  dividendYield : Option Nat
  industryPE : Option Nat
deriving Repr, DecidableEq

/-- One row of the yfinance recommendations DataFrame: the `To Grade` column
and the rendered date of the row's index (`latest_rec.name.date()`). -/
structure Recommendation where
  toGrade : String
  date : String
deriving Repr, DecidableEq

/-- One entry of the yfinance `stock.news` list. -/
structure NewsItem where
  title : String
  link : String
deriving Repr, DecidableEq

/-- `get_stock_price` from `main.py` (lines 33–45). The upstream value is the
`Close` column of `stock.history(period="1d")`; `.error m` models the lookup
raising an exception with message `m`. Returns the result string paired with
the `logging.error` emissions. -/
def get_stock_price (symbol : String) (history : Except String (List Nat)) :
    String × List String :=
  match history with
  | Except.ok closes =>
      match closes.getLast? with
      | some current_price =>
          ("The current price of " ++ symbol ++ " is $" ++ format2f current_price, [])
      | none =>
          ("Unable to fetch the current price for " ++ symbol ++ ". The stock data is empty.",
           [])
  | Except.error e =>
      ("Error fetching stock price for " ++ symbol ++ ": " ++ e,
       ["Error fetching stock price for " ++ symbol ++ ": " ++ e])

/-- `get_company_info` from `main.py` (lines 48–56). `info['longName']` on a
missing key raises `KeyError('longName')`, whose `str` is `'longName'` with
the quotes, caught by the function's own handler; `info.get('sector',
'Unknown')` and `info.get('longBusinessSummary', '')[:200]` tolerate missing
keys. -/
def get_company_info (symbol : String) (fetched : Except String CompanyInfo) :
    String × List String :=
  match fetched with
  | Except.ok info =>
      match info.longName with
      | some longName =>
          (longName ++ " (" ++ symbol ++ ") is in the " ++ info.sector.getD "Unknown"
             ++ " sector. " ++ (info.longBusinessSummary.getD "").take 200 ++ "...",
           [])
      | none =>
          ("Error fetching company info for " ++ symbol ++ ": " ++ "\x27longName\x27",
           ["Error fetching company info for " ++ symbol ++ ": " ++ "\x27longName\x27"])
  | Except.error e =>
      ("Error fetching company info for " ++ symbol ++ ": " ++ e,
       ["Error fetching company info for " ++ symbol ++ ": " ++ e])

/-- Renders an optional ratio the way the source interpolates
`info.get('trailingPE', 'N/A')`: the value's float repr when present,
`"N/A"` otherwise (repr modelled as two-decimal rendering of the scaled
value). -/
def showRatio (r : Option Nat) : String :=
  match r with
  | some v => format2f v
  | none => "N/A"

/-- `get_financial_ratios` from `main.py` (lines 59–72). A present dividend
yield `y` is rendered as `f"{y * 100:.2f}%"`; with the yield held scaled by
10⁴ that is `format2f` of the stored value followed by a percent sign. -/
def get_financial_ratios (symbol : String) (fetched : Except String CompanyInfo) :
    String × List String :=
  match fetched with
  | Except.ok info =>
      let dividend_yield :=
        match info.dividendYield with
        | some y => format2f y ++ "%"
        | none => "N/A"
      (symbol ++ " financial ratios: P/E: " ++ showRatio info.trailingPE
         ++ ", P/B: " ++ showRatio info.priceToBook
         ++ ", Dividend Yield: " ++ dividend_yield,
       [])
  | Except.error e =>
      ("Error fetching financial ratios for " ++ symbol ++ ": " ++ e,
       ["Error fetching financial ratios for " ++ symbol ++ ": " ++ e])

/-- `get_analyst_recommendations` from `main.py` (lines 75–87). The upstream
`stock.recommendations` may be `None` (`Option.none`) or an empty DataFrame
(`some []`); both take the "no recommendations" branch. Otherwise the last
row is reported. On an exception the logged message and the returned message
differ, as in the source. -/
def get_analyst_recommendations (symbol : String)
    (fetched : Except String (Option (List Recommendation))) : String × List String :=
  match fetched with
  | Except.ok recommendations =>
      match recommendations with
      | some recs =>
          match recs.getLast? with
          | some latest_rec =>
              ("Latest analyst recommendation for " ++ symbol ++ ": " ++ latest_rec.toGrade
                 ++ " as of " ++ latest_rec.date,
               [])
          | none => ("No analyst recommendations available for " ++ symbol, [])
      | none => ("No analyst recommendations available for " ++ symbol, [])
  | Except.error e =>
      ("Unable to fetch analyst recommendations for " ++ symbol
         ++ " due to an error: " ++ e,
       ["Error fetching analyst recommendations for " ++ symbol ++ ": " ++ e])

/-- `get_recent_news` from `main.py` (lines 90–102). A non-empty news list
reports its first entry; an empty list is the "no recent news" branch. -/
def get_recent_news (symbol : String) (fetched : Except String (List NewsItem)) :
    String × List String :=
  match fetched with
  | Except.ok news =>
      match news with
      | latest_news :: _ =>
          ("Latest news for " ++ symbol ++ ": " ++ latest_news.title
             ++ " - " ++ latest_news.link,
           [])
      | [] => ("No recent news available for " ++ symbol, [])
  | Except.error e =>
      ("Error fetching recent news for " ++ symbol ++ ": " ++ e,
       ["Error fetching recent news for " ++ symbol ++ ": " ++ e])

/-- `get_industry_comparison` from `main.py` (lines 105–129). The P/E
comparison happens only when both ratios are present; its three branches
follow the source's `<`, `>`, `=` cases on the scaled values. -/
def get_industry_comparison (symbol : String) (fetched : Except String CompanyInfo) :
    String × List String :=
  match fetched with
  | Except.ok info =>
      let sector := info.sector.getD "Unknown"
      let industry := info.industry.getD "Unknown"
      let comparison := symbol ++ " is in the " ++ sector ++ " sector, specifically in the "
        ++ industry ++ " industry. "
      match info.trailingPE, info.industryPE with
      | some pe_ratio, some industry_pe =>
          if pe_ratio < industry_pe then
            (comparison ++ "Its P/E ratio (" ++ format2f pe_ratio
               ++ ") is lower than the industry average (" ++ format2f industry_pe
               ++ "), which could indicate it\x27s undervalued compared to its peers.",
             [])
          else if industry_pe < pe_ratio then
            (comparison ++ "Its P/E ratio (" ++ format2f pe_ratio
               ++ ") is higher than the industry average (" ++ format2f industry_pe
               ++ "), which could indicate it\x27s overvalued compared to its peers.",
             [])
          else
            (comparison ++ "Its P/E ratio (" ++ format2f pe_ratio
               ++ ") is in line with the industry average (" ++ format2f industry_pe ++ ").",
             [])
      | _, _ =>
          (comparison ++ "Unable to compare P/E ratio with industry average due to lack of data.",
           [])
  | Except.error e =>
      ("Unable to fetch industry comparison for " ++ symbol ++ " due to an error: " ++ e,
       ["Error fetching industry comparison for " ++ symbol ++ ": " ++ e])

/-- `t` occurs as a contiguous substring of `s`. -/
def containsSub (s t : String) : Prop :=
  ∃ a b, s = a ++ t ++ b

theorem str_append_assoc (a b c : String) : a ++ b ++ c = a ++ (b ++ c) := by
  apply String.ext
  simp [List.append_assoc]

theorem str_append_empty (a : String) : a ++ "" = a := by
  apply String.ext
  simp

/-- The result string mentions both the symbol and the error message. -/
def mentions (r symbol m : String) : Prop :=
  containsSub r symbol ∧ containsSub r m

theorem mentions_parts (p c s m : String) : mentions (p ++ s ++ c ++ m) s m := by
  constructor
  · exact ⟨p, c ++ m, by simp [str_append_assoc]⟩
  · exact ⟨p ++ s ++ c, "", by simp [str_append_assoc, str_append_empty]⟩

/-- A capability descriptor: the name and description a tool carries in the
registry (`ToolMetadata` in the source). -/
structure ToolMetadata where
  name : String
  description : String
deriving Repr, DecidableEq

/-- The two query-engine tools built by `setup_query_engines_and_tools` in
`RAG.py` (lines 66–91), with the metadata given there. -/
def query_engine_tools : List ToolMetadata :=
  [⟨"lyft_10k",
    "Provides information about Lyft financials for year 2021. "
      ++ "Use a detailed plain text question as input to the tool."⟩,
   ⟨"uber_10k",
    "Provides information about Uber financials for year 2021. "
      ++ "Use a detailed plain text question as input to the tool."⟩]

/-- The six tools registered in `main.py` (lines 132–137).
`FunctionTool.from_defaults(fn=f)` derives the tool name from the function's
name and the description from its docstring. -/
def main_tools : List ToolMetadata :=
  [⟨"get_stock_price", "获取给定股票代码的当前价格"⟩,
   ⟨"get_company_info", "获取给定股票代码的公司信息"⟩,
   ⟨"get_financial_ratios", "获取给定股票的关键财务比率"⟩,
   ⟨"get_analyst_recommendations", "获取分析师对给定股票的推荐"⟩,
   ⟨"get_recent_news", "获取与给定股票相关的最新新闻"⟩,
   ⟨"get_industry_comparison", "获取股票与行业平均水平的比较"⟩]

/-- Looks a registered name up in a registry. -/
def lookupByName (registry : List ToolMetadata) (n : String) : List ToolMetadata :=
  registry.filter (fun t => t.name = n)

/-- Modelled from the spec: the Dispatch Coordinator (the llama_agents
launcher's `alaunch_single`, whose implementation is not under `src/`; only
its call sites are) yields per request either a Final Answer or, when the
language-model decision step fails, a failed-Request result surfaced at the
Coordinator boundary — it never raises into the Session Driver. -/
inductive CoordOutcome where
  | answer (text : String)
  | failed (err : String)
deriving Repr, DecidableEq

/-- The text the driver receives from the Coordinator and prints, whether the
request succeeded or was surfaced as a failure. -/
def renderOutcome : CoordOutcome → String
  | CoordOutcome.answer text => text
  | CoordOutcome.failed err => err

/-- One observable step of the session-driver loop in `RAG.py` (lines
162–165): the `print(f"Query: {query}")`, the submission to
`launcher.alaunch_single`, and the `print(f"Result: {result}\n")`. -/
inductive Event where
  | printedQuery (q : String)
  | submitted (q : String)
  | printedResult (r : String)
deriving Repr, DecidableEq

/-- The `for query in queries` loop of `main` in `RAG.py` (lines 162–165) as
the ordered trace of its observable events: each request is printed,
submitted, and its result printed before the next request is touched. -/
def sessionDriver (launch : String → CoordOutcome) : List String → List Event
  | [] => []
  | query :: rest =>
      Event.printedQuery query
        :: Event.submitted query
        :: Event.printedResult (renderOutcome (launch query))
        :: sessionDriver launch rest

/-- The printed results of a trace, in order. -/
def results (trace : List Event) : List String :=
  trace.filterMap fun e =>
    match e with
    | Event.printedResult r => some r
    | _ => none

/-- The submissions of a trace, in order. -/
def submissions (trace : List Event) : List String :=
  trace.filterMap fun e =>
    match e with
    | Event.submitted q => some q
    | _ => none

/-- The two example queries of `main` in `RAG.py` (lines 156–159). -/
def ragQueries : List String :=
  ["What are the risk factors for Uber?",
   "What was Lyft\x27s revenue growth in 2021?"]

/-- The hard-coded API base URL of both source files. -/
def apiBase : String := "https://api.aigc369.com/v1"

/-- A process environment, as `os.getenv` sees it. -/
def EnvMap : Type := String → Option String

/-- `os.environ[k] = v`. -/
def setEnv (env : EnvMap) (k v : String) : EnvMap :=
  fun n => if n = k then some v else env n

/-- The start-up credential check common to `main.py` (lines 23–31) and
`RAG.py` (lines 28–38): read `OPENAI_API_KEY`; if it is absent or empty
(`if not api_key`), raise `ValueError("OPENAI_API_KEY not found in .env
file")`; otherwise install the key and the base URL into the environment. -/
def installCredentials (getenv : EnvMap) : Except String EnvMap :=
  match getenv "OPENAI_API_KEY" with
  | none => Except.error "OPENAI_API_KEY not found in .env file"
  | some api_key =>
      if api_key = "" then Except.error "OPENAI_API_KEY not found in .env file"
      else
        Except.ok (setEnv (setEnv getenv "OPENAI_API_KEY" api_key) "OPENAI_BASE_URL" apiBase)

/-- The top-to-bottom order of `RAG.py`: the credential check runs at import
time, before `main` processes any request; a configuration error aborts with
no driver trace. -/
def ragMain (getenv : EnvMap) (launch : String → CoordOutcome) :
    Except String (EnvMap × List Event) :=
  match installCredentials getenv with
  | Except.error e => Except.error e
  | Except.ok env => Except.ok (env, sessionDriver launch ragQueries)

/-- The index collaborator of `RAG.py`, as the contract its call sites use:
restoration from a directory path (`load_index_from_storage` over a storage
context, which may raise — `none`), document loading from a file path
(`SimpleDirectoryReader(...).load_data()`), and index construction
(`VectorStoreIndex.from_documents`). -/
structure IndexEnv (Docs Index : Type) where
  loadIndexFromStorage : String → Option Index
  loadData : String → Docs
  fromDocuments : Docs → Index

/-- The body of the `try` block of `load_and_index_data` (`RAG.py` lines
46–50): load the lyft index, then the uber index; the first failure aborts
the whole block. -/
def tryLoadIndexes {Docs Index : Type} (env : IndexEnv Docs Index) :
    Option (Index × Index) := do
  let lyft_index ← env.loadIndexFromStorage "./storage/lyft"
  let uber_index ← env.loadIndexFromStorage "./storage/uber"
  pure (lyft_index, uber_index)

/-- `load_and_index_data` from `RAG.py` (lines 43–63). Returns the
`(lyft_index, uber_index)` pair together with the ordered list of
`persist(persist_dir=...)` calls performed, each as a (directory, index)
pair. -/
def load_and_index_data {Docs Index : Type} (env : IndexEnv Docs Index) :
    (Index × Index) × List (String × Index) :=
  match tryLoadIndexes env with
  | some (lyft_index, uber_index) => ((lyft_index, uber_index), [])
  | none =>
      let lyft_docs := env.loadData "./data/10k/lyft_2021.pdf"
      let uber_docs := env.loadData "./data/10k/uber_2021.pdf"
      let lyft_index := env.fromDocuments lyft_docs
      let uber_index := env.fromDocuments uber_docs
      ((lyft_index, uber_index),
       [("./storage/lyft", lyft_index), ("./storage/uber", uber_index)])

/-- C1: for every capability function and every symbol, when the upstream
lookup raises with message `m`, the function returns a string — it is total
over the exception input, never re-raising — and that string contains the
symbol and the error description `m`. -/
theorem C1_capability_error_strings (symbol m : String) :
    mentions (get_stock_price symbol (Except.error m)).fst symbol m
  ∧ mentions (get_company_info symbol (Except.error m)).fst symbol m
  ∧ mentions (get_financial_ratios symbol (Except.error m)).fst symbol m
  ∧ mentions (get_analyst_recommendations symbol (Except.error m)).fst symbol m
  ∧ mentions (get_recent_news symbol (Except.error m)).fst symbol m
  ∧ mentions (get_industry_comparison symbol (Except.error m)).fst symbol m := by
  refine ⟨?_, ?_, ?_, ?_, ?_, ?_⟩
  · exact mentions_parts "Error fetching stock price for " ": " symbol m
  · exact mentions_parts "Error fetching company info for " ": " symbol m
  · exact mentions_parts "Error fetching financial ratios for " ": " symbol m
  · exact mentions_parts "Unable to fetch analyst recommendations for " " due to an error: " symbol m
  · exact mentions_parts "Error fetching recent news for " ": " symbol m
  · exact mentions_parts "Unable to fetch industry comparison for " " due to an error: " symbol m

/-- C2: with a non-empty one-day history, `get_stock_price` returns exactly
the success template applied to the last `Close` value (in particular
`"The current price of AAPL is $150.00"` for AAPL closing at 150.00), and on
an exception with message `m` it returns exactly the error template. -/
theorem C2_get_stock_price_format (symbol : String) (closes : List Nat) (p : Nat)
    (h : closes.getLast? = some p) :
    (get_stock_price symbol (Except.ok closes)).fst
      = "The current price of " ++ symbol ++ " is $" ++ format2f p
  ∧ (∀ m : String, (get_stock_price symbol (Except.error m)).fst
      = "Error fetching stock price for " ++ symbol ++ ": " ++ m)
  ∧ (get_stock_price "AAPL" (Except.ok [15000])).fst
      = "The current price of AAPL is $150.00" := by
  refine ⟨?_, fun m => rfl, rfl⟩
  simp [get_stock_price, h]

theorem C2_get_stock_price_format_witness :
    (get_stock_price "AAPL" (Except.ok [15000])).fst
      = "The current price of AAPL is $150.00" := by
  have h := (C2_get_stock_price_format "AAPL" [15000] 15000 rfl).1
  rw [h]
  rfl

/-- C3: empty or missing upstream data is reported as a plain-language
"unavailable" message with no log emission — `get_stock_price` on an empty
history, `get_analyst_recommendations` on `None` or an empty table,
`get_recent_news` on an empty news list — and for these functions a log is
emitted exactly on the exception path: every `ok` input yields an empty log
and every exception input yields a non-empty one. -/
theorem C3_empty_data_unavailable_no_log (symbol : String) :
    get_stock_price symbol (Except.ok [])
      = ("Unable to fetch the current price for " ++ symbol ++ ". The stock data is empty.", [])
  ∧ get_analyst_recommendations symbol (Except.ok none)
      = ("No analyst recommendations available for " ++ symbol, [])
  ∧ get_analyst_recommendations symbol (Except.ok (some []))
      = ("No analyst recommendations available for " ++ symbol, [])
  ∧ get_recent_news symbol (Except.ok [])
      = ("No recent news available for " ++ symbol, [])
  ∧ (∀ closes : List Nat, (get_stock_price symbol (Except.ok closes)).snd = [])
  ∧ (∀ recs : Option (List Recommendation),
       (get_analyst_recommendations symbol (Except.ok recs)).snd = [])
  ∧ (∀ news : List NewsItem, (get_recent_news symbol (Except.ok news)).snd = [])
  ∧ (∀ m : String, (get_stock_price symbol (Except.error m)).snd
       = ["Error fetching stock price for " ++ symbol ++ ": " ++ m])
  ∧ (∀ m : String, (get_analyst_recommendations symbol (Except.error m)).snd
       = ["Error fetching analyst recommendations for " ++ symbol ++ ": " ++ m])
  ∧ (∀ m : String, (get_recent_news symbol (Except.error m)).snd
       = ["Error fetching recent news for " ++ symbol ++ ": " ++ m]) := by
  refine ⟨rfl, rfl, rfl, rfl, ?_, ?_, ?_, fun m => rfl, fun m => rfl, fun m => rfl⟩
  · intro closes
    cases h : closes.getLast? <;> simp [get_stock_price, h]
  · intro recs
    match recs with
    | none => rfl
    | some recs =>
        cases h : recs.getLast? <;> simp [get_analyst_recommendations, h]
  · intro news
    cases news <;> rfl

theorem take_length_le (s : String) (n : Nat) : (s.take n).length ≤ n := by
  show (s.take n).data.length ≤ n
  rw [String.data_take]
  simp [List.length_take]

/-- C10: a missing `longName` sends `get_company_info` down the error path
(the `KeyError` is caught and reported as `Error fetching company info for
... : 'longName'`, with a log emission), whereas missing `sector` or
`longBusinessSummary` fields are tolerated through the `Unknown` and `""`
defaults; on success the included business summary is the summary truncated
to its first 200 characters. -/
theorem C10_company_info_longname_required (symbol : String) :
    (∀ sec sum ind pe pb dy ipe,
       get_company_info symbol (Except.ok ⟨none, sec, sum, ind, pe, pb, dy, ipe⟩)
         = ("Error fetching company info for " ++ symbol ++ ": " ++ "\x27longName\x27",
            ["Error fetching company info for " ++ symbol ++ ": " ++ "\x27longName\x27"]))
  ∧ (∀ ln sec sum ind pe pb dy ipe,
       get_company_info symbol (Except.ok ⟨some ln, sec, sum, ind, pe, pb, dy, ipe⟩)
         = (ln ++ " (" ++ symbol ++ ") is in the " ++ sec.getD "Unknown" ++ " sector. "
              ++ (sum.getD "").take 200 ++ "...",
            []))
  ∧ (∀ sum : Option String, ((sum.getD "").take 200).length ≤ 200) := by
  refine ⟨fun _ _ _ _ _ _ _ => rfl, fun _ _ _ _ _ _ _ _ => rfl, ?_⟩
  intro sum
  exact take_length_le (sum.getD "") 200

/-- C4: if `OPENAI_API_KEY` is absent or empty at process start, the program
stops with the `ValueError` message before any request is processed (the
result carries no driver trace); if a non-empty key is present, no error is
raised, the driver runs, and the key and base URL are installed into the
environment. -/
theorem C4_missing_api_key_fatal (getenv : EnvMap) (launch : String → CoordOutcome) :
    ((getenv "OPENAI_API_KEY" = none ∨ getenv "OPENAI_API_KEY" = some "") →
       ragMain getenv launch = Except.error "OPENAI_API_KEY not found in .env file")
  ∧ (∀ k : String, getenv "OPENAI_API_KEY" = some k → k ≠ "" →
       ragMain getenv launch
         = Except.ok (setEnv (setEnv getenv "OPENAI_API_KEY" k) "OPENAI_BASE_URL" apiBase,
                      sessionDriver launch ragQueries)
       ∧ setEnv (setEnv getenv "OPENAI_API_KEY" k) "OPENAI_BASE_URL" apiBase "OPENAI_API_KEY"
           = some k
       ∧ setEnv (setEnv getenv "OPENAI_API_KEY" k) "OPENAI_BASE_URL" apiBase "OPENAI_BASE_URL"
           = some apiBase) := by
  constructor
  · intro h
    rcases h with h | h <;> simp [ragMain, installCredentials, h]
  · intro k hk hne
    refine ⟨?_, ?_, ?_⟩
    · simp [ragMain, installCredentials, hk, hne]
    · simp [setEnv]
    · simp [setEnv]

theorem C4_missing_api_key_fatal_witness :
    ragMain (fun _ => none) (fun _ => CoordOutcome.answer "ok")
      = Except.error "OPENAI_API_KEY not found in .env file"
  ∧ ragMain (fun n => if n = "OPENAI_API_KEY" then some "sk-test" else none)
        (fun _ => CoordOutcome.answer "ok")
      = Except.ok
          (setEnv (setEnv (fun n => if n = "OPENAI_API_KEY" then some "sk-test" else none)
                     "OPENAI_API_KEY" "sk-test") "OPENAI_BASE_URL" apiBase,
           sessionDriver (fun _ => CoordOutcome.answer "ok") ragQueries) := by
  constructor
  · exact (C4_missing_api_key_fatal (fun _ => none) (fun _ => CoordOutcome.answer "ok")).1
      (Or.inl rfl)
  · exact ((C4_missing_api_key_fatal (fun n => if n = "OPENAI_API_KEY" then some "sk-test" else none)
      (fun _ => CoordOutcome.answer "ok")).2 "sk-test" rfl (by decide)).1

/-- C5: the session-driver loop is strictly sequential: for requests
`[q1, q2]` the trace is exactly "print q1, submit q1, print its result,
print q2, submit q2, print its result" — the second request is submitted
only after the first result has been obtained and printed — so the outputs
appear in submission order. -/
theorem C5_session_driver_sequential (launch : String → CoordOutcome) (q1 q2 : String) :
    sessionDriver launch [q1, q2]
      = [Event.printedQuery q1, Event.submitted q1,
         Event.printedResult (renderOutcome (launch q1)),
         Event.printedQuery q2, Event.submitted q2,
         Event.printedResult (renderOutcome (launch q2))]
  ∧ results (sessionDriver launch [q1, q2])
      = [renderOutcome (launch q1), renderOutcome (launch q2)] := by
  exact ⟨rfl, rfl⟩

/-- C6: every submitted request yields exactly one printed outcome, in
submission order, whether the Coordinator hands back a Final Answer or a
surfaced failed-Request result — a failure is fatal only to its own request,
the driver is not crashed and proceeds to the rest (the trace submits every
query and prints one result per query). -/
theorem C6_request_failure_contained (launch : String → CoordOutcome) (queries : List String) :
    results (sessionDriver launch queries)
      = queries.map (fun q => renderOutcome (launch q))
  ∧ submissions (sessionDriver launch queries) = queries := by
  induction queries with
  | nil => exact ⟨rfl, rfl⟩
  | cons q rest ih =>
      refine ⟨?_, ?_⟩
      · simpa [sessionDriver, results] using ih.1
      · simpa [sessionDriver, submissions] using ih.2

/-- C7: `load_and_index_data` first attempts to restore the two indexes from
`./storage/lyft` and `./storage/uber`; when both restorations succeed it
returns them with no persist call, and when restoration fails it builds both
indexes from the two PDF paths, persists each to its storage directory, and
returns the built pair. -/
theorem C7_load_and_index_persistence {Docs Index : Type} (env : IndexEnv Docs Index) :
    (∀ l u : Index,
       env.loadIndexFromStorage "./storage/lyft" = some l →
       env.loadIndexFromStorage "./storage/uber" = some u →
       load_and_index_data env = ((l, u), []))
  ∧ (env.loadIndexFromStorage "./storage/lyft" = none ∨
       env.loadIndexFromStorage "./storage/uber" = none →
       load_and_index_data env
         = ((env.fromDocuments (env.loadData "./data/10k/lyft_2021.pdf"),
             env.fromDocuments (env.loadData "./data/10k/uber_2021.pdf")),
            [("./storage/lyft", env.fromDocuments (env.loadData "./data/10k/lyft_2021.pdf")),
             ("./storage/uber", env.fromDocuments (env.loadData "./data/10k/uber_2021.pdf"))])) := by
  constructor
  · intro l u hl hu
    simp [load_and_index_data, tryLoadIndexes, hl, hu]
  · intro h
    rcases h with h | h
    · simp [load_and_index_data, tryLoadIndexes, h]
    · cases hl : env.loadIndexFromStorage "./storage/lyft" <;>
        simp [load_and_index_data, tryLoadIndexes, hl, h]

theorem C7_load_and_index_persistence_witness :
    load_and_index_data
        (IndexEnv.mk (fun d => if d = "./storage/lyft" then some 1 else some 2)
          (fun _ => (0 : Nat)) (fun _ => (7 : Nat)))
      = ((1, 2), [])
  ∧ load_and_index_data
        (IndexEnv.mk (fun _ => (none : Option Nat)) (fun _ => (0 : Nat)) (fun _ => (7 : Nat)))
      = ((7, 7), [("./storage/lyft", 7), ("./storage/uber", 7)]) := by
  constructor
  · exact (C7_load_and_index_persistence
      (IndexEnv.mk (fun d => if d = "./storage/lyft" then some 1 else some 2)
        (fun _ => (0 : Nat)) (fun _ => (7 : Nat)))).1 1 2 (by decide) (by decide)
  · exact (C7_load_and_index_persistence
      (IndexEnv.mk (fun _ => (none : Option Nat)) (fun _ => (0 : Nat))
        (fun _ => (7 : Nat)))).2 (Or.inl rfl)

/-- C9: when the lyft index restores successfully but the uber restoration
fails, the single bare `except` discards the already-loaded lyft index too:
both indexes are rebuilt from the PDFs and both are re-persisted, the result
being independent of the loaded value. -/
theorem C9_partial_load_rebuilds_both {Docs Index : Type} (env : IndexEnv Docs Index)
    (l : Index)
    (hl : env.loadIndexFromStorage "./storage/lyft" = some l)
    (hu : env.loadIndexFromStorage "./storage/uber" = none) :
    load_and_index_data env
      = ((env.fromDocuments (env.loadData "./data/10k/lyft_2021.pdf"),
          env.fromDocuments (env.loadData "./data/10k/uber_2021.pdf")),
         [("./storage/lyft", env.fromDocuments (env.loadData "./data/10k/lyft_2021.pdf")),
          ("./storage/uber", env.fromDocuments (env.loadData "./data/10k/uber_2021.pdf"))]) := by
  simp [load_and_index_data, tryLoadIndexes, hl, hu]

theorem C9_partial_load_rebuilds_both_witness :
    load_and_index_data
        (IndexEnv.mk (fun d => if d = "./storage/lyft" then some 99 else none)
          (fun _ => (0 : Nat)) (fun _ => (7 : Nat)))
      = ((7, 7), [("./storage/lyft", 7), ("./storage/uber", 7)])
  ∧ (IndexEnv.mk (fun d => if d = "./storage/lyft" then some 99 else none)
       (fun _ => (0 : Nat)) (fun _ => (7 : Nat))).loadIndexFromStorage "./storage/lyft"
      = some 99 := by
  constructor
  · exact C9_partial_load_rebuilds_both
      (IndexEnv.mk (fun d => if d = "./storage/lyft" then some 99 else none)
        (fun _ => (0 : Nat)) (fun _ => (7 : Nat))) 99 (by decide) (by decide)
  · decide

/-- C8: capability names are unique within each registry: the RAG registry
carries exactly the names `lyft_10k` and `uber_10k`, the main registry the
six distinct function-derived names, both name lists have no duplicate, and
looking any registered name up yields exactly one descriptor. -/
theorem C8_tool_names_unique :
    query_engine_tools.map ToolMetadata.name = ["lyft_10k", "uber_10k"]
  ∧ main_tools.map ToolMetadata.name
      = ["get_stock_price", "get_company_info", "get_financial_ratios",
         "get_analyst_recommendations", "get_recent_news", "get_industry_comparison"]
  ∧ (query_engine_tools.map ToolMetadata.name).Nodup
  ∧ (main_tools.map ToolMetadata.name).Nodup
  ∧ (∀ n : String, n ∈ query_engine_tools.map ToolMetadata.name →
       (lookupByName query_engine_tools n).length = 1)
  ∧ (∀ n : String, n ∈ main_tools.map ToolMetadata.name →
       (lookupByName main_tools n).length = 1) := by
  refine ⟨rfl, rfl, by decide, by decide, ?_, ?_⟩
  · intro n hn
    fin_cases hn <;> decide
  · intro n hn
    fin_cases hn <;> decide

theorem C8_tool_names_unique_witness :
    (lookupByName query_engine_tools "lyft_10k").length = 1
  ∧ (lookupByName main_tools "get_stock_price").length = 1 := by
  constructor
  · exact C8_tool_names_unique.2.2.2.2.1 "lyft_10k" (by decide)
  · exact C8_tool_names_unique.2.2.2.2.2 "get_stock_price" (by decide)
